import Mathlib

/-!
Verification of the okteto session-controller and pipeline-destroy code.

The Go sources embedded here:
- cli/cmd/up.go: RunUp, Activate, WaitUntilExitOrInterrupt, startSync,
  forceLocalSyncState, buildExecCommand.
- cmd/pipeline/destroy.go: destroyPipeline, the destroy command continuation,
  deprecatedWaitToBeDestroyed.
- pkg/k8s/diverts/crud.go: Delete (the divert-CRD deletion step).

External collaborators (the syncthing engine, the port-forward manager, the
okteto API client, Kubernetes) are abstracted as environments/oracles that
supply the success or failure of each call, so the control flow of the
embedded functions is exactly that of the source.
-/

/-- Error values that flow through the up command: the two sentinel errors of
the errors package plus arbitrary other Go errors. -/
inductive GoErr where
  | lostConnection
  | commandFailed
  | generic (msg : String)
deriving DecidableEq, Repr

/-- State of the channels WaitUntilExitOrInterrupt selects over.
running holds the pending shell-completion value when the shell exited
(some none = exited with nil error, some (some e) = exited with error e);
errChan is the queue of generic error reports; disconnect and ctxDone say
whether those channels are ready. -/
structure WaitState where
  ctxDone : Bool
  running : Option (Option GoErr)
  errChan : List GoErr
  disconnect : Bool
deriving DecidableEq, Repr

/-- One branch of the select statement in WaitUntilExitOrInterrupt. -/
inductive SelBranch where
  | ctxDone
  | running
  | errChan
  | disconnect
deriving DecidableEq, Repr

/-- Whether a select branch is ready to fire in a given channel state. -/
def branchReady (s : WaitState) : SelBranch → Bool
  | SelBranch.ctxDone => s.ctxDone
  | SelBranch.running => s.running.isSome
  | SelBranch.errChan => !s.errChan.isEmpty
  | SelBranch.disconnect => s.disconnect

/-- WaitUntilExitOrInterrupt from up.go. Go's select picks nondeterministically
among ready branches; the schedule argument resolves that nondeterminism (a
branch in the schedule that is not ready is skipped). Returns some r when the
function returns r (none = nil, some e = error e); returns none when the
schedule is exhausted with the loop still blocked. -/
def waitUntilExitOrInterrupt : WaitState → List SelBranch → Option (Option GoErr)
  | _, [] => none
  | s, c :: cs =>
    if branchReady s c then
      match c with
      | SelBranch.ctxDone => some none
      | SelBranch.running =>
        match s.running with
        | some (some _) => some (some GoErr.commandFailed)
        | some none => some none
        | none => none
      | SelBranch.errChan =>
        waitUntilExitOrInterrupt { s with errChan := s.errChan.tail } cs
      | SelBranch.disconnect => some (some GoErr.lostConnection)
    else
      waitUntilExitOrInterrupt s cs

/-- Outcomes of one iteration of the Activate loop, supplied by the
environment: the error (if any) of each sequential phase call, the value
WaitUntilExitOrInterrupt returns for this iteration, and what Sy.IsConnected()
reports when Activate tests it. -/
structure IterEnv where
  devModeErr : Option GoErr
  startSyncErr : Option GoErr
  finalizeErr : Option GoErr
  cmdStartErr : Option GoErr
  monitorResult : Option GoErr
  syConnected : Bool
deriving DecidableEq, Repr

/-- The retry condition of Activate (up.go lines 206-207):
prevError != nil && (prevError == ErrLostConnection ||
prevError == ErrCommandFailed && !up.Sy.IsConnected()). -/
def isRecoverable (prevError : Option GoErr) (syConnected : Bool) : Bool :=
  prevError.isSome &&
    (prevError == some GoErr.lostConnection ||
      (prevError == some GoErr.commandFailed && !syConnected))

/-- Result of running Activate against a finite script of iteration
environments: either a value was sent on the Exit channel (none = nil), or the
script ran out while the loop was still re-entering. -/
inductive ExitOutcome where
  | exited (v : Option GoErr)
  | stillLooping
deriving DecidableEq, Repr

/-- Activate from up.go: each loop iteration runs devMode, startSync,
forceLocalSyncState and cmd.Start in order, sending the first error to Exit
and returning; otherwise it blocks in WaitUntilExitOrInterrupt, and either
re-enters the loop (recoverable prevError) or sends nil to Exit and returns. -/
def activate : List IterEnv → ExitOutcome
  | [] => ExitOutcome.stillLooping
  | e :: rest =>
    match e.devModeErr with
    | some err => ExitOutcome.exited (some err)
    | none =>
      match e.startSyncErr with
      | some err => ExitOutcome.exited (some err)
      | none =>
        match e.finalizeErr with
        | some err => ExitOutcome.exited (some err)
        | none =>
          match e.cmdStartErr with
          | some err => ExitOutcome.exited (some err)
          | none =>
            if isRecoverable e.monitorResult e.syConnected then
              activate rest
            else
              ExitOutcome.exited none

/-- RunUp from up.go: blocks on a select between the OS interrupt signal and
the Exit channel; on interrupt it returns nil, on Exit it returns the received
error if non-nil and nil otherwise. Outer none = RunUp never returns (the
script ran out). -/
def runUp (interruptFirst : Bool) (script : List IterEnv) : Option (Option GoErr) :=
  if interruptFirst then some none
  else
    match activate script with
    | ExitOutcome.exited v => some v
    | ExitOutcome.stillLooping => none

/-- First iteration: every phase succeeds and the monitor reports a lost
connection, so Activate re-enters the loop (reconnection attempt). -/
def cleanIterThenLost : IterEnv :=
  { devModeErr := none, startSyncErr := none, finalizeErr := none,
    cmdStartErr := none, monitorResult := some GoErr.lostConnection,
    syConnected := false }

/-- Reconnection iteration in which startSync fails. -/
def syncFailIter : IterEnv :=
  { devModeErr := none, startSyncErr := some (GoErr.generic "sync failed"),
    finalizeErr := none, cmdStartErr := none, monitorResult := none,
    syConnected := true }

/-- Iteration in which every phase succeeds, the shell then exits non-zero
(monitor yields ErrCommandFailed) while the sync engine is still connected. -/
def cmdFailedConnectedIter : IterEnv :=
  { devModeErr := none, startSyncErr := none, finalizeErr := none,
    cmdStartErr := none, monitorResult := some GoErr.commandFailed,
    syConnected := true }

/-- Claim C1 as stated is false: on reconnection attempt 1 (after a first
iteration that ended in a recoverable lost connection) a startSync failure is
NOT recoverable — Activate delivers the error on the terminal-exit channel and
stops looping, instead of re-entering the reconnect loop. -/
theorem sync_failure_on_retry_is_fatal_cex :
    activate [cleanIterThenLost, syncFailIter] =
      ExitOutcome.exited (some (GoErr.generic "sync failed")) := by
  decide

/-- Claim C1 amended: a failure in the Sync phase is fatal on EVERY attempt,
first or reconnection alike — Activate always delivers it on the terminal-exit
channel and never re-enters the reconnect loop for it. -/
theorem sync_failure_always_fatal (e : IterEnv) (rest : List IterEnv)
    (err : GoErr) (hdev : e.devModeErr = none)
    (hsync : e.startSyncErr = some err) :
    activate (e :: rest) = ExitOutcome.exited (some err) := by
  simp [activate, hdev, hsync]

/-- Witness for sync_failure_always_fatal at a concrete iteration. -/
theorem sync_failure_always_fatal_witness :
    activate [syncFailIter] = ExitOutcome.exited (some (GoErr.generic "sync failed")) :=
  sync_failure_always_fatal syncFailIter [] (GoErr.generic "sync failed")
    (by decide) (by decide)

/-- Claim C2 as stated is false: with a successful (nil) shell completion
pending on the Running channel AND a disconnect notification ready, the select
may fire the disconnect branch, turning the run into ErrLostConnection even
though the user's command finished successfully. -/
theorem success_completion_loses_to_disconnect_cex :
    waitUntilExitOrInterrupt
      { ctxDone := false, running := some none, errChan := [], disconnect := true }
      [SelBranch.disconnect] = some (some GoErr.lostConnection) := by
  decide

/-- Claim C2 amended: the outcome of a simultaneous successful completion and
disconnect is *nondeterministic*: the session terminates cleanly exactly when
the select happens to pick the Running branch; if it picks the disconnect
branch the wait returns ErrLostConnection. -/
theorem success_completion_wins_when_selected (s : WaitState)
    (cs : List SelBranch) (hrun : s.running = some none) :
    waitUntilExitOrInterrupt s (SelBranch.running :: cs) = some none := by
  simp [waitUntilExitOrInterrupt, branchReady, hrun]

/-- Witness for success_completion_wins_when_selected: the same both-ready
state as the counterexample, with the select picking the Running branch. -/
theorem success_completion_wins_when_selected_witness :
    waitUntilExitOrInterrupt
      { ctxDone := false, running := some none, errChan := [], disconnect := true }
      [SelBranch.running] = some none :=
  success_completion_wins_when_selected
    { ctxDone := false, running := some none, errChan := [], disconnect := true }
    [] (by decide)

/-- Claim C3: after a fully successful activation, a CommandFailed monitor
outcome makes Activate tear down and re-enter the loop (reconnect) exactly
when the sync engine reports disconnected; when it is connected, CommandFailed
is terminal (the loop ends) and is never retried. -/
theorem commandFailed_recoverable_iff_disconnected (e : IterEnv)
    (rest : List IterEnv) (hdev : e.devModeErr = none)
    (hsync : e.startSyncErr = none) (hfin : e.finalizeErr = none)
    (hcmd : e.cmdStartErr = none)
    (hmon : e.monitorResult = some GoErr.commandFailed) :
    isRecoverable e.monitorResult e.syConnected = !e.syConnected ∧
    (e.syConnected = false → activate (e :: rest) = activate rest) ∧
    (e.syConnected = true → activate (e :: rest) = ExitOutcome.exited none) := by
  refine ⟨by simp [isRecoverable, hmon], ?_, ?_⟩
  · intro hconn
    simp [activate, hdev, hsync, hfin, hcmd, isRecoverable, hmon, hconn]
  · intro hconn
    simp [activate, hdev, hsync, hfin, hcmd, isRecoverable, hmon, hconn]

/-- Witness for commandFailed_recoverable_iff_disconnected at a concrete
iteration (connected case). -/
theorem commandFailed_recoverable_iff_disconnected_witness :
    isRecoverable cmdFailedConnectedIter.monitorResult cmdFailedConnectedIter.syConnected
        = !cmdFailedConnectedIter.syConnected ∧
    (cmdFailedConnectedIter.syConnected = false →
      activate [cmdFailedConnectedIter] = activate []) ∧
    (cmdFailedConnectedIter.syConnected = true →
      activate [cmdFailedConnectedIter] = ExitOutcome.exited none) :=
  commandFailed_recoverable_iff_disconnected cmdFailedConnectedIter []
    (by decide) (by decide) (by decide) (by decide) (by decide)

/-- Claim C4 as stated is false: a run that ends in the terminal
CommandFailed-while-connected signal makes Activate send nil on the Exit
channel, so the blocking entry point RunUp returns nil (a clean outcome), not
the non-nil terminal error the claim requires. -/
theorem terminal_commandFailed_returns_nil_cex :
    runUp false [cmdFailedConnectedIter] = some none := by
  decide

/-- Claim C4 amended: RunUp returns a non-nil error only when an
activation-phase step (devMode, startSync, forceLocalSyncState, or starting
the exec subprocess) failed; every termination decided by the monitor —
including the terminal CommandFailed while the sync engine is connected — and
clean completion and OS interrupt all return nil. -/
theorem runUp_nonnil_only_from_phase_errors (script : List IterEnv)
    (err : GoErr) (h : runUp false script = some (some err)) :
    ∃ e, e ∈ script ∧
      (e.devModeErr = some err ∨ e.startSyncErr = some err ∨
        e.finalizeErr = some err ∨ e.cmdStartErr = some err) := by
  have hact : activate script = ExitOutcome.exited (some err) := by
    simp only [runUp, Bool.false_eq_true, if_false] at h
    cases hs : activate script with
    | exited v => rw [hs] at h; simp at h; rw [h]
    | stillLooping => rw [hs] at h; simp at h
  clear h
  induction script with
  | nil => simp [activate] at hact
  | cons e rest ih =>
    cases hdev : e.devModeErr with
    | some d =>
      simp [activate, hdev] at hact
      exact ⟨e, List.mem_cons_self e rest, Or.inl (by rw [hdev, hact])⟩
    | none =>
      cases hsync : e.startSyncErr with
      | some d =>
        simp [activate, hdev, hsync] at hact
        exact ⟨e, List.mem_cons_self e rest, Or.inr (Or.inl (by rw [hsync, hact]))⟩
      | none =>
        cases hfin : e.finalizeErr with
        | some d =>
          simp [activate, hdev, hsync, hfin] at hact
          exact ⟨e, List.mem_cons_self e rest,
            Or.inr (Or.inr (Or.inl (by rw [hfin, hact])))⟩
        | none =>
          cases hcmd : e.cmdStartErr with
          | some d =>
            simp [activate, hdev, hsync, hfin, hcmd] at hact
            exact ⟨e, List.mem_cons_self e rest,
              Or.inr (Or.inr (Or.inr (by rw [hcmd, hact])))⟩
          | none =>
            by_cases hrec : isRecoverable e.monitorResult e.syConnected = true
            · simp [activate, hdev, hsync, hfin, hcmd, hrec] at hact
              obtain ⟨e1, he1, hcase⟩ := ih hact
              exact ⟨e1, List.mem_cons_of_mem e he1, hcase⟩
            · simp [activate, hdev, hsync, hfin, hcmd, hrec] at hact

/-- Witness for runUp_nonnil_only_from_phase_errors at a concrete script. -/
theorem runUp_nonnil_only_from_phase_errors_witness :
    ∃ e, e ∈ [syncFailIter] ∧
      (e.devModeErr = some (GoErr.generic "sync failed") ∨
        e.startSyncErr = some (GoErr.generic "sync failed") ∨
        e.finalizeErr = some (GoErr.generic "sync failed") ∨
        e.cmdStartErr = some (GoErr.generic "sync failed")) :=
  runUp_nonnil_only_from_phase_errors [syncFailIter]
    (GoErr.generic "sync failed") (by decide)

/-- A user-declared port forward from the dev manifest. -/
structure Forward where
  localPort : Nat
  remotePort : Nat
deriving DecidableEq, Repr

/-- Observable calls made by startSync and forceLocalSyncState, in order.
Calls that can fail carry the success of that call. -/
inductive SyncEvent where
  | syRun (ok : Bool)
  | addBinding (localPort remotePort : Nat)
  | forwarderStart
  | monitorStart
  | waitForPing (ok : Bool)
  | waitDrained (ok : Bool)
  | overrideLocal (ok : Bool)
  | setSendReceive
  | updateConfig (ok : Bool)
  | syRestart (ok : Bool)
deriving DecidableEq, Repr

/-- Environment for one activation cycle: the outcome of each collaborator
call made by startSync and forceLocalSyncState. addOk says whether
Forwarder.Add accepts a given (localPort, remotePort) binding. -/
structure SyncEnv where
  runOk : Bool
  addOk : Nat → Nat → Bool
  pingOk : Bool
  drainOk : Bool
  overrideOk : Bool
  drain2Ok : Bool
  updateOk : Bool
  restartOk : Bool

/-- The sequence of Forwarder.Add calls over a binding list: each call is
recorded; the first failing call aborts the sequence (startSync returns its
error). Returns the events and whether all adds succeeded. -/
def addList (env : SyncEnv) : List (Nat × Nat) → List SyncEvent × Bool
  | [] => ([], true)
  | (l, r) :: rest =>
    if env.addOk l r then
      let tail := addList env rest
      (SyncEvent.addBinding l r :: tail.1, tail.2)
    else
      ([SyncEvent.addBinding l r], false)

/-- The bindings startSync registers, in registration order: the sync-control
port (Sy.RemotePort to syncthing.ClusterPort), the sync-GUI port
(Sy.RemoteGUIPort to syncthing.GUIPort), and every user-declared forward. -/
def requiredBinds (remotePort remoteGUIPort clusterPort guiPort : Nat)
    (fwds : List Forward) : List (Nat × Nat) :=
  (remotePort, clusterPort) :: (remoteGUIPort, guiPort) ::
    fwds.map (fun f => (f.localPort, f.remotePort))

/-- startSync from up.go: Sy.Run; Forwarder.Add(Sy.RemotePort, ClusterPort);
Forwarder.Add(Sy.RemoteGUIPort, GUIPort); Forwarder.Add for every
user-declared forward; Forwarder.Start; go Sy.Monitor; Sy.WaitForPing;
Sy.WaitForCompletion. Any error aborts the sequence and is returned. -/
def startSync (env : SyncEnv) (remotePort remoteGUIPort clusterPort guiPort : Nat)
    (fwds : List Forward) : List SyncEvent × Option GoErr :=
  if !env.runOk then ([SyncEvent.syRun false], some (GoErr.generic "sy run failed"))
  else
    let binds := requiredBinds remotePort remoteGUIPort clusterPort guiPort fwds
    let added := addList env binds
    let tr := SyncEvent.syRun true :: added.1
    if !added.2 then (tr, some (GoErr.generic "add failed"))
    else
      let tr := tr ++ [SyncEvent.forwarderStart, SyncEvent.monitorStart,
        SyncEvent.waitForPing env.pingOk]
      if !env.pingOk then (tr, some (GoErr.generic "ping failed"))
      else
        let tr := tr ++ [SyncEvent.waitDrained env.drainOk]
        if !env.drainOk then (tr, some (GoErr.generic "drain failed"))
        else (tr, none)

/-- forceLocalSyncState from up.go: Sy.OverrideChanges; Sy.WaitForCompletion;
Sy.Type = sendreceive; Sy.UpdateConfig; Sy.Restart. Any error aborts the
sequence and is returned. -/
def forceLocalSyncState (env : SyncEnv) : List SyncEvent × Option GoErr :=
  let tr := [SyncEvent.overrideLocal env.overrideOk]
  if !env.overrideOk then (tr, some (GoErr.generic "override failed"))
  else
    let tr := tr ++ [SyncEvent.waitDrained env.drain2Ok]
    if !env.drain2Ok then (tr, some (GoErr.generic "drain failed"))
    else
      let tr := tr ++ [SyncEvent.setSendReceive, SyncEvent.updateConfig env.updateOk]
      if !env.updateOk then (tr, some (GoErr.generic "update config failed"))
      else
        let tr := tr ++ [SyncEvent.syRestart env.restartOk]
        (tr, if env.restartOk then none else some (GoErr.generic "restart failed"))

/-- One activation cycle as Activate runs it: startSync followed, when it
succeeds, by forceLocalSyncState. -/
def syncCycle (env : SyncEnv) (remotePort remoteGUIPort clusterPort guiPort : Nat)
    (fwds : List Forward) : List SyncEvent × Option GoErr :=
  match startSync env remotePort remoteGUIPort clusterPort guiPort fwds with
  | (tr, some e) => (tr, some e)
  | (tr, none) =>
    let fin := forceLocalSyncState env
    (tr ++ fin.1, fin.2)

/-- Whether an event is a Forwarder.Add call. -/
def isAddEvent : SyncEvent → Bool
  | SyncEvent.addBinding _ _ => true
  | _ => false

/-- Whether an event is the OverrideChanges call. -/
def isOverrideEvent : SyncEvent → Bool
  | SyncEvent.overrideLocal _ => true
  | _ => false

/-- Scans a trace: true when no setSendReceive (mode flip) occurs before the
first successful WaitForCompletion (drain). -/
def noFlipBeforeDrain : List SyncEvent → Bool
  | [] => true
  | SyncEvent.setSendReceive :: _ => false
  | SyncEvent.waitDrained true :: _ => true
  | _ :: rest => noFlipBeforeDrain rest

/-- The (localPort, remotePort) pairs of the Add events of a trace, in order. -/
def addsOf (tr : List SyncEvent) : List (Nat × Nat) :=
  tr.filterMap (fun e =>
    match e with
    | SyncEvent.addBinding l r => some (l, r)
    | _ => none)

lemma addList_events_are_adds (env : SyncEnv) (binds : List (Nat × Nat)) :
    ∀ e ∈ (addList env binds).1, isAddEvent e = true := by
  induction binds with
  | nil => simp [addList]
  | cons b rest ih =>
    obtain ⟨l, r⟩ := b
    by_cases h : env.addOk l r = true
    · simp only [addList, h, if_true]
      intro e he
      rcases List.mem_cons.mp he with h1 | h2
      · rw [h1]; rfl
      · exact ih e h2
    · simp only [addList, h, if_false]
      intro e he
      rcases List.mem_cons.mp he with h1 | h2
      · rw [h1]; rfl
      · simp at h2

lemma addList_ok_trace (env : SyncEnv) (binds : List (Nat × Nat))
    (h : (addList env binds).2 = true) :
    (addList env binds).1 = binds.map (fun p => SyncEvent.addBinding p.1 p.2) := by
  induction binds with
  | nil => simp [addList]
  | cons b rest ih =>
    obtain ⟨l, r⟩ := b
    by_cases hok : env.addOk l r = true
    · simp only [addList, hok, if_true] at h ⊢
      simp [ih h]
    · simp [addList, hok] at h

/-- An event the noFlipBeforeDrain scan steps over: neither the mode flip nor
a successful drain. -/
def scanNeutral : SyncEvent → Bool
  | SyncEvent.setSendReceive => false
  | SyncEvent.waitDrained true => false
  | _ => true

lemma scanNeutral_of_add (e : SyncEvent) (h : isAddEvent e = true) :
    scanNeutral e = true := by
  cases e <;> first | rfl | simp [isAddEvent] at h

lemma noFlipBeforeDrain_append_neutral (A B : List SyncEvent)
    (h : ∀ e ∈ A, scanNeutral e = true) :
    noFlipBeforeDrain (A ++ B) = noFlipBeforeDrain B := by
  induction A with
  | nil => simp
  | cons e rest ih =>
    have he : scanNeutral e = true := h e (List.mem_cons_self e rest)
    have hrest := ih (fun x hx => h x (List.mem_cons_of_mem _ hx))
    cases e with
    | addBinding l r => simpa [noFlipBeforeDrain] using hrest
    | syRun ok => simpa [noFlipBeforeDrain] using hrest
    | forwarderStart => simpa [noFlipBeforeDrain] using hrest
    | monitorStart => simpa [noFlipBeforeDrain] using hrest
    | waitForPing ok => simpa [noFlipBeforeDrain] using hrest
    | waitDrained ok =>
      cases ok with
      | true => simp [scanNeutral] at he
      | false => simpa [noFlipBeforeDrain] using hrest
    | overrideLocal ok => simpa [noFlipBeforeDrain] using hrest
    | setSendReceive => simp [scanNeutral] at he
    | updateConfig ok => simpa [noFlipBeforeDrain] using hrest
    | syRestart ok => simpa [noFlipBeforeDrain] using hrest

lemma noFlipBeforeDrain_of_neutral (A : List SyncEvent)
    (h : ∀ e ∈ A, scanNeutral e = true) : noFlipBeforeDrain A = true := by
  have := noFlipBeforeDrain_append_neutral A [] h
  simpa using this

lemma startSync_run_fail (env : SyncEnv) (rp rgp cp gp : Nat) (fwds : List Forward)
    (hr : env.runOk = false) :
    startSync env rp rgp cp gp fwds =
      ([SyncEvent.syRun false], some (GoErr.generic "sy run failed")) := by
  simp [startSync, hr]

lemma startSync_add_fail (env : SyncEnv) (rp rgp cp gp : Nat) (fwds : List Forward)
    (hr : env.runOk = true)
    (hadd : (addList env (requiredBinds rp rgp cp gp fwds)).2 = false) :
    startSync env rp rgp cp gp fwds =
      (SyncEvent.syRun true :: (addList env (requiredBinds rp rgp cp gp fwds)).1,
        some (GoErr.generic "add failed")) := by
  simp [startSync, hr, hadd]

lemma startSync_ping_fail (env : SyncEnv) (rp rgp cp gp : Nat) (fwds : List Forward)
    (hr : env.runOk = true)
    (hadd : (addList env (requiredBinds rp rgp cp gp fwds)).2 = true)
    (hp : env.pingOk = false) :
    startSync env rp rgp cp gp fwds =
      (SyncEvent.syRun true ::
        ((requiredBinds rp rgp cp gp fwds).map (fun p => SyncEvent.addBinding p.1 p.2) ++
          [SyncEvent.forwarderStart, SyncEvent.monitorStart, SyncEvent.waitForPing false]),
        some (GoErr.generic "ping failed")) := by
  simp [startSync, hr, hadd, hp, addList_ok_trace env _ hadd]

lemma startSync_drain_fail (env : SyncEnv) (rp rgp cp gp : Nat) (fwds : List Forward)
    (hr : env.runOk = true)
    (hadd : (addList env (requiredBinds rp rgp cp gp fwds)).2 = true)
    (hp : env.pingOk = true) (hd : env.drainOk = false) :
    startSync env rp rgp cp gp fwds =
      (SyncEvent.syRun true ::
        ((requiredBinds rp rgp cp gp fwds).map (fun p => SyncEvent.addBinding p.1 p.2) ++
          [SyncEvent.forwarderStart, SyncEvent.monitorStart, SyncEvent.waitForPing true,
            SyncEvent.waitDrained false]),
        some (GoErr.generic "drain failed")) := by
  simp [startSync, hr, hadd, hp, hd, addList_ok_trace env _ hadd]

lemma startSync_ok (env : SyncEnv) (rp rgp cp gp : Nat) (fwds : List Forward)
    (hr : env.runOk = true)
    (hadd : (addList env (requiredBinds rp rgp cp gp fwds)).2 = true)
    (hp : env.pingOk = true) (hd : env.drainOk = true) :
    startSync env rp rgp cp gp fwds =
      (SyncEvent.syRun true ::
        ((requiredBinds rp rgp cp gp fwds).map (fun p => SyncEvent.addBinding p.1 p.2) ++
          [SyncEvent.forwarderStart, SyncEvent.monitorStart, SyncEvent.waitForPing true,
            SyncEvent.waitDrained true]),
        none) := by
  simp [startSync, hr, hadd, hp, hd, addList_ok_trace env _ hadd]

lemma syncCycle_of_startSync_fail (env : SyncEnv) (rp rgp cp gp : Nat)
    (fwds : List Forward) (tr : List SyncEvent) (e : GoErr)
    (h : startSync env rp rgp cp gp fwds = (tr, some e)) :
    syncCycle env rp rgp cp gp fwds = (tr, some e) := by
  simp [syncCycle, h]

lemma syncCycle_of_startSync_ok (env : SyncEnv) (rp rgp cp gp : Nat)
    (fwds : List Forward) (tr : List SyncEvent)
    (h : startSync env rp rgp cp gp fwds = (tr, none)) :
    syncCycle env rp rgp cp gp fwds =
      (tr ++ (forceLocalSyncState env).1, (forceLocalSyncState env).2) := by
  simp [syncCycle, h]

lemma noFlipBeforeDrain_adds (binds : List (Nat × Nat)) (B : List SyncEvent) :
    noFlipBeforeDrain (binds.map (fun p => SyncEvent.addBinding p.1 p.2) ++ B) =
      noFlipBeforeDrain B := by
  induction binds with
  | nil => simp
  | cons b rest ih => simpa [noFlipBeforeDrain] using ih

lemma noFlipBeforeDrain_addListEvents (env : SyncEnv) (binds : List (Nat × Nat)) :
    noFlipBeforeDrain (addList env binds).1 = true := by
  induction binds with
  | nil => simp [addList, noFlipBeforeDrain]
  | cons b rest ih =>
    obtain ⟨l, r⟩ := b
    by_cases h : env.addOk l r = true
    · simp only [addList, h, if_true]
      simpa [noFlipBeforeDrain] using ih
    · simp [addList, h, noFlipBeforeDrain]

lemma flip_not_mem_addList (env : SyncEnv) (binds : List (Nat × Nat)) :
    SyncEvent.setSendReceive ∉ (addList env binds).1 := by
  intro h
  have := addList_events_are_adds env binds _ h
  simp [isAddEvent] at this

lemma count_flip_map_adds (binds : List (Nat × Nat)) :
    (binds.map (fun p => SyncEvent.addBinding p.1 p.2)).count SyncEvent.setSendReceive
      = 0 := by
  simp [List.count_eq_zero, List.mem_map]

lemma filter_override_map_adds (binds : List (Nat × Nat)) :
    (binds.map (fun p => SyncEvent.addBinding p.1 p.2)).filter isOverrideEvent = [] := by
  rw [List.filter_eq_nil_iff]
  intro a ha
  obtain ⟨p, hp, rfl⟩ := List.mem_map.mp ha
  simp [isOverrideEvent]

lemma forceLocal_no_adds (env : SyncEnv) (l r : Nat) :
    SyncEvent.addBinding l r ∉ (forceLocalSyncState env).1 := by
  by_cases ho : env.overrideOk = true
  · by_cases hd : env.drain2Ok = true
    · by_cases hu : env.updateOk = true
      · simp [forceLocalSyncState, ho, hd, hu]
      · simp [forceLocalSyncState, ho, hd, hu]
    · simp [forceLocalSyncState, ho, hd]
  · simp [forceLocalSyncState, ho]

lemma noFlip_cons_syRun (ok : Bool) (X : List SyncEvent) :
    noFlipBeforeDrain (SyncEvent.syRun ok :: X) = noFlipBeforeDrain X := rfl

/-- Environment in which every collaborator call succeeds. -/
def envAllOk : SyncEnv :=
  { runOk := true, addOk := fun _ _ => true, pingOk := true, drainOk := true,
    overrideOk := true, drain2Ok := true, updateOk := true, restartOk := true }

/-- Claim C5: in every activation cycle the flip of the sync type to
sendreceive is never performed before a WaitForCompletion (drain) call has
succeeded in that cycle; no flip at all happens during startSync (the first
sync after connecting runs in the engine's initial local-to-remote mode); and
a cycle that completes successfully performs exactly one OverrideChanges call
and exactly one mode flip. -/
theorem mode_flip_only_after_drain (env : SyncEnv) (rp rgp cp gp : Nat)
    (fwds : List Forward) :
    noFlipBeforeDrain (syncCycle env rp rgp cp gp fwds).1 = true ∧
    SyncEvent.setSendReceive ∉ (startSync env rp rgp cp gp fwds).1 ∧
    ((syncCycle env rp rgp cp gp fwds).2 = none →
      ((syncCycle env rp rgp cp gp fwds).1.filter isOverrideEvent).length = 1 ∧
      (syncCycle env rp rgp cp gp fwds).1.count SyncEvent.setSendReceive = 1) := by
  by_cases hr : env.runOk = true
  · by_cases hadd : (addList env (requiredBinds rp rgp cp gp fwds)).2 = true
    · by_cases hp : env.pingOk = true
      · by_cases hd : env.drainOk = true
        · have hS := startSync_ok env rp rgp cp gp fwds hr hadd hp hd
          have hC := syncCycle_of_startSync_ok env rp rgp cp gp fwds _ hS
          refine ⟨?_, ?_, ?_⟩
          · rw [hC]
            simp only [List.cons_append, List.append_assoc]
            rw [noFlip_cons_syRun, noFlipBeforeDrain_adds]
            rfl
          · rw [hS]
            simp [List.mem_map]
          · intro hsucc
            rw [hC] at hsucc ⊢
            by_cases ho : env.overrideOk = true
            · by_cases hd2 : env.drain2Ok = true
              · by_cases hu : env.updateOk = true
                · by_cases hrest : env.restartOk = true
                  · simp [forceLocalSyncState, ho, hd2, hu, hrest,
                      List.count_append, List.count_cons, count_flip_map_adds,
                      List.filter_append, filter_override_map_adds,
                      isOverrideEvent, List.count]
                  · simp [forceLocalSyncState, ho, hd2, hu, hrest] at hsucc
                · simp [forceLocalSyncState, ho, hd2, hu] at hsucc
              · simp [forceLocalSyncState, ho, hd2] at hsucc
            · simp [forceLocalSyncState, ho] at hsucc
        · have hS := startSync_drain_fail env rp rgp cp gp fwds hr hadd hp
            (by simp [hd])
          have hC := syncCycle_of_startSync_fail env rp rgp cp gp fwds _ _ hS
          refine ⟨?_, ?_, ?_⟩
          · rw [hC]
            simp only [List.cons_append, List.append_assoc]
            rw [noFlip_cons_syRun, noFlipBeforeDrain_adds]
            rfl
          · rw [hS]
            simp [List.mem_map]
          · intro hsucc
            rw [hC] at hsucc
            simp at hsucc
      · have hS := startSync_ping_fail env rp rgp cp gp fwds hr hadd (by simp [hp])
        have hC := syncCycle_of_startSync_fail env rp rgp cp gp fwds _ _ hS
        refine ⟨?_, ?_, ?_⟩
        · rw [hC]
          simp only [List.cons_append, List.append_assoc]
          rw [noFlip_cons_syRun, noFlipBeforeDrain_adds]
          rfl
        · rw [hS]
          simp [List.mem_map]
        · intro hsucc
          rw [hC] at hsucc
          simp at hsucc
    · have hS := startSync_add_fail env rp rgp cp gp fwds hr (by simp [hadd])
      have hC := syncCycle_of_startSync_fail env rp rgp cp gp fwds _ _ hS
      refine ⟨?_, ?_, ?_⟩
      · rw [hC]
        simp only [noFlipBeforeDrain]
        exact noFlipBeforeDrain_addListEvents env _
      · rw [hS]
        simp only [List.mem_cons]
        rintro (h | h)
        · exact SyncEvent.noConfusion h
        · exact flip_not_mem_addList env _ h
      · intro hsucc
        rw [hC] at hsucc
        simp at hsucc
  · have hS := startSync_run_fail env rp rgp cp gp fwds (by simp [hr])
    have hC := syncCycle_of_startSync_fail env rp rgp cp gp fwds _ _ hS
    refine ⟨?_, ?_, ?_⟩
    · rw [hC]
      rfl
    · rw [hS]
      simp
    · intro hsucc
      rw [hC] at hsucc
      simp at hsucc

/-- Witness for mode_flip_only_after_drain at a concrete all-success
environment with one user-declared forward. -/
theorem mode_flip_only_after_drain_witness :
    noFlipBeforeDrain (syncCycle envAllOk 1 2 3 4 [⟨5, 6⟩]).1 = true ∧
    SyncEvent.setSendReceive ∉ (startSync envAllOk 1 2 3 4 [⟨5, 6⟩]).1 ∧
    (((syncCycle envAllOk 1 2 3 4 [⟨5, 6⟩]).1.filter isOverrideEvent).length = 1 ∧
      (syncCycle envAllOk 1 2 3 4 [⟨5, 6⟩]).1.count SyncEvent.setSendReceive = 1) :=
  ⟨(mode_flip_only_after_drain envAllOk 1 2 3 4 [⟨5, 6⟩]).1,
    (mode_flip_only_after_drain envAllOk 1 2 3 4 [⟨5, 6⟩]).2.1,
    (mode_flip_only_after_drain envAllOk 1 2 3 4 [⟨5, 6⟩]).2.2 rfl⟩

lemma addsOf_map_adds (binds : List (Nat × Nat)) :
    addsOf (binds.map (fun p => SyncEvent.addBinding p.1 p.2)) = binds := by
  induction binds with
  | nil => rfl
  | cons b rest ih =>
    simp only [List.map_cons, addsOf, List.filterMap_cons] at ih ⊢
    simp [ih]

lemma addsOf_cons_syRun (ok : Bool) (L : List SyncEvent) :
    addsOf (SyncEvent.syRun ok :: L) = addsOf L := by
  simp [addsOf, List.filterMap_cons]

/-- Claim C6: in every activation the tunnel manager's Start is invoked only
after all required bindings were registered: when Forwarder.Start appears in
the cycle trace, every Add call precedes it, the set of Add calls before it is
exactly the sync-control binding, the sync-GUI binding and every user-declared
forward (in that order), and no Add call occurs after Start. -/
theorem forwarder_start_after_all_bindings (env : SyncEnv) (rp rgp cp gp : Nat)
    (fwds : List Forward)
    (h : SyncEvent.forwarderStart ∈ (syncCycle env rp rgp cp gp fwds).1) :
    ∃ front back,
      (syncCycle env rp rgp cp gp fwds).1 = front ++ SyncEvent.forwarderStart :: back ∧
      (∀ l r, SyncEvent.addBinding l r ∉ back) ∧
      addsOf front = requiredBinds rp rgp cp gp fwds := by
  by_cases hr : env.runOk = true
  · by_cases hadd : (addList env (requiredBinds rp rgp cp gp fwds)).2 = true
    · by_cases hp : env.pingOk = true
      · by_cases hd : env.drainOk = true
        · have hS := startSync_ok env rp rgp cp gp fwds hr hadd hp hd
          have hC := syncCycle_of_startSync_ok env rp rgp cp gp fwds _ hS
          refine ⟨SyncEvent.syRun true ::
            (requiredBinds rp rgp cp gp fwds).map (fun p => SyncEvent.addBinding p.1 p.2),
            [SyncEvent.monitorStart, SyncEvent.waitForPing true, SyncEvent.waitDrained true]
              ++ (forceLocalSyncState env).1, ?_, ?_, ?_⟩
          · rw [hC]
            simp [List.cons_append, List.append_assoc]
          · intro l r hmem
            rcases List.mem_append.mp hmem with hx | hx
            · simp at hx
            · exact forceLocal_no_adds env l r hx
          · rw [addsOf_cons_syRun, addsOf_map_adds]
        · have hS := startSync_drain_fail env rp rgp cp gp fwds hr hadd hp
            (by simp [hd])
          have hC := syncCycle_of_startSync_fail env rp rgp cp gp fwds _ _ hS
          refine ⟨SyncEvent.syRun true ::
            (requiredBinds rp rgp cp gp fwds).map (fun p => SyncEvent.addBinding p.1 p.2),
            [SyncEvent.monitorStart, SyncEvent.waitForPing true, SyncEvent.waitDrained false],
            ?_, ?_, ?_⟩
          · rw [hC]
            simp [List.cons_append, List.append_assoc]
          · intro l r hmem
            simp at hmem
          · rw [addsOf_cons_syRun, addsOf_map_adds]
      · have hS := startSync_ping_fail env rp rgp cp gp fwds hr hadd (by simp [hp])
        have hC := syncCycle_of_startSync_fail env rp rgp cp gp fwds _ _ hS
        refine ⟨SyncEvent.syRun true ::
          (requiredBinds rp rgp cp gp fwds).map (fun p => SyncEvent.addBinding p.1 p.2),
          [SyncEvent.monitorStart, SyncEvent.waitForPing false], ?_, ?_, ?_⟩
        · rw [hC]
          simp [List.cons_append, List.append_assoc]
        · intro l r hmem
          simp at hmem
        · rw [addsOf_cons_syRun, addsOf_map_adds]
    · have hS := startSync_add_fail env rp rgp cp gp fwds hr (by simp [hadd])
      have hC := syncCycle_of_startSync_fail env rp rgp cp gp fwds _ _ hS
      rw [hC] at h
      rcases List.mem_cons.mp h with hx | hx
      · exact absurd hx (by simp)
      · have := addList_events_are_adds env _ _ hx
        simp [isAddEvent] at this
  · have hS := startSync_run_fail env rp rgp cp gp fwds (by simp [hr])
    have hC := syncCycle_of_startSync_fail env rp rgp cp gp fwds _ _ hS
    rw [hC] at h
    simp at h

/-- Witness for forwarder_start_after_all_bindings at a concrete all-success
environment with one user-declared forward. -/
theorem forwarder_start_after_all_bindings_witness :
    ∃ front back,
      (syncCycle envAllOk 1 2 3 4 [⟨5, 6⟩]).1 =
        front ++ SyncEvent.forwarderStart :: back ∧
      (∀ l r, SyncEvent.addBinding l r ∉ back) ∧
      addsOf front = requiredBinds 1 2 3 4 [⟨5, 6⟩] :=
  forwarder_start_after_all_bindings envAllOk 1 2 3 4 [⟨5, 6⟩] (by decide)

/-- A Go error as the okteto errors package classifies it: whether
errors.IsNotFound holds, whether errors.IsNotExist holds, whether its message
contains the string the divert Delete code greps for (the server could not
find the requested resource), and its message. -/
structure KErr where
  isNotFound : Bool
  isNotExist : Bool
  hasServerNotFoundMsg : Bool
  msg : String
deriving DecidableEq, Repr

/-- The value the destroyPipeline goroutine sends on its exit channel, given
the result of oktetoClient.DestroyPipeline (none = success): a not-found error
is logged and turned into a nil exit value, any other error is wrapped and
sent. -/
def destroyExitValue (name : String) : Option KErr → Option String
  | none => none
  | some e =>
    if e.isNotFound then none
    else some ("failed to destroy pipeline " ++ name ++ ": " ++ e.msg)

/-- The okteto Action of a GitDeployResponse. -/
structure OktetoAction where
  name : String
deriving DecidableEq, Repr

/-- okteto.GitDeployResponse: the response of the destroy request. -/
structure GitDeployResponse where
  action : Option OktetoAction
  gitDeploy : String
deriving DecidableEq, Repr

/-- Which branch of destroyPipeline's select fires: the OS interrupt signal or
the goroutine's exit channel. -/
inductive DestroySel where
  | interrupt
  | exitChan
deriving DecidableEq, Repr

/-- destroyPipeline from destroy.go. clientErr is the error of
okteto.NewOktetoClient (checked before the goroutine starts); outcome is the
result of oktetoClient.DestroyPipeline; respOnSuccess is the response it
yields on success. On the interrupt branch the goroutine has not yet assigned
resp (the destroy request is still in flight), so the function falls out of
the select and returns the nil resp with a nil error. -/
def destroyPipeline (clientErr : Option String) (sel : DestroySel) (name : String)
    (outcome : Option KErr) (respOnSuccess : GitDeployResponse) :
    Option GitDeployResponse × Option String :=
  match clientErr with
  | some e => (none, some e)
  | none =>
    match sel with
    | DestroySel.interrupt => (none, none)
    | DestroySel.exitChan =>
      match destroyExitValue name outcome with
      | some e => (none, some e)
      | none => (if outcome.isSome then none else some respOnSuccess, none)

/-- Evaluation of resp.Action in Go: on a nil resp pointer the field access
faults (nil-pointer dereference); otherwise it reads the Action field. -/
inductive RespActionEval where
  | nilPointerPanic
  | action (a : Option OktetoAction)
deriving DecidableEq, Repr

def evalRespAction : Option GitDeployResponse → RespActionEval
  | none => RespActionEval.nilPointerPanic
  | some r => RespActionEval.action r.action

/-- What the destroy command does after destroyPipeline returns. -/
inductive DestroyOutcome where
  | err (msg : String)
  | scheduled
  | proceedsToWait (ev : RespActionEval)
deriving DecidableEq, Repr

/-- The continuation of the destroy RunE after destroyPipeline (destroy.go
lines 70-83): a non-nil error is returned; without the wait flag the command
reports success; with the wait flag it calls waitUntilDestroyed with
resp.Action, evaluating resp.Action on whatever resp it got. -/
def destroyAfterPipeline (wait : Bool)
    (res : Option GitDeployResponse × Option String) : DestroyOutcome :=
  match res.2 with
  | some e => DestroyOutcome.err e
  | none =>
    if !wait then DestroyOutcome.scheduled
    else DestroyOutcome.proceedsToWait (evalRespAction res.1)

/-- The result of one GetPipelineByName poll. -/
inductive PollResult where
  | clientErr (e : KErr)
  | pipeline (status : String)
deriving DecidableEq, Repr

/-- One iteration body of the deprecated wait loop on a poll tick (destroy.go
lines 195-206): not-found/not-exist means the pipeline is gone (return nil);
any other client error is wrapped and returned; a pipeline in error status is
a failure; otherwise keep looping (none). -/
def pollPipelineStep (name : String) : PollResult → Option (Option String)
  | PollResult.clientErr e =>
    if e.isNotFound || e.isNotExist then some none
    else some (some ("failed to get pipeline " ++ name ++ ": " ++ e.msg))
  | PollResult.pipeline status =>
    if status = "error" then some (some ("pipeline " ++ name ++ " failed"))
    else none

/-- Outcome of the divert-CRD deletion step of diverts Delete (crud.go lines
151-158): a message saying the server could not find the requested resource
maps to ErrDivertNotSupported; any other non-not-found error is wrapped; a
nil error or a not-found error proceeds to the rest of Delete. -/
inductive DivertDeleteStep where
  | proceed
  | errNotSupported
  | err (msg : String)
deriving DecidableEq, Repr

def deleteDivertCRDStep (name : String) : Option KErr → DivertDeleteStep
  | none => DivertDeleteStep.proceed
  | some e =>
    if e.hasServerNotFoundMsg then DivertDeleteStep.errNotSupported
    else if !e.isNotFound then
      DivertDeleteStep.err ("error deleting divert CRD " ++ name ++ ": " ++ e.msg)
    else DivertDeleteStep.proceed

/-- Claim C7: a not-found classification on destroy/poll/divert-delete is
treated as already gone and surfaces as success, while every other failure
surfaces as an error: the destroyPipeline goroutine sends nil, the deprecated
poll loop returns nil, and the divert-CRD delete proceeds without error. -/
theorem notfound_means_already_gone (name : String) (e e2 : KErr)
    (hnf : e.isNotFound = true) (hmsg : e.hasServerNotFoundMsg = false)
    (h2nf : e2.isNotFound = false) (h2ne : e2.isNotExist = false) :
    destroyExitValue name (some e) = none ∧
    pollPipelineStep name (PollResult.clientErr e) = some none ∧
    deleteDivertCRDStep name (some e) = DivertDeleteStep.proceed ∧
    (destroyExitValue name (some e2)).isSome = true ∧
    pollPipelineStep name (PollResult.clientErr e2) ≠ some none ∧
    deleteDivertCRDStep name (some e2) ≠ DivertDeleteStep.proceed := by
  refine ⟨?_, ?_, ?_, ?_, ?_, ?_⟩
  · simp [destroyExitValue, hnf]
  · simp [pollPipelineStep, hnf]
  · simp [deleteDivertCRDStep, hmsg, hnf]
  · simp [destroyExitValue, h2nf]
  · simp [pollPipelineStep, h2nf, h2ne]
  · by_cases hm : e2.hasServerNotFoundMsg = true
    · simp [deleteDivertCRDStep, hm]
    · simp [deleteDivertCRDStep, hm, h2nf]

/-- Witness for notfound_means_already_gone at concrete errors. -/
theorem notfound_means_already_gone_witness :
    destroyExitValue "api" (some ⟨true, false, false, "not found"⟩) = none ∧
    pollPipelineStep "api" (PollResult.clientErr ⟨true, false, false, "not found"⟩)
      = some none ∧
    deleteDivertCRDStep "api" (some ⟨true, false, false, "not found"⟩)
      = DivertDeleteStep.proceed ∧
    (destroyExitValue "api" (some ⟨false, false, false, "boom"⟩)).isSome = true ∧
    pollPipelineStep "api" (PollResult.clientErr ⟨false, false, false, "boom"⟩)
      ≠ some none ∧
    deleteDivertCRDStep "api" (some ⟨false, false, false, "boom"⟩)
      ≠ DivertDeleteStep.proceed :=
  notfound_means_already_gone "api" ⟨true, false, false, "not found"⟩
    ⟨false, false, false, "boom"⟩ rfl rfl rfl rfl

/-- Interval of the status-poll ticker in the deprecated wait loop, in
seconds: time.NewTicker(1 * time.Second). -/
def pollTickerSeconds : Nat := 1

/-- A tick processed by the deprecated wait loop select: either the overall
timeout ticker fires, or the one-second poll ticker fires with the result of
the GetPipelineByName call it triggers. -/
inductive TickEvent where
  | timeoutTick
  | pollTick (r : PollResult)
deriving DecidableEq, Repr

/-- The select loop of deprecatedWaitToBeDestroyed over a finite sequence of
ticks. Returns some r when it returns r (none = nil); none when the tick
sequence is exhausted with the loop still polling. -/
def deprecatedWaitLoop (name tstr : String) : List TickEvent → Option (Option String)
  | [] => none
  | TickEvent.timeoutTick :: _ =>
    some (some ("pipeline " ++ name ++ " did not finish after " ++ tstr))
  | TickEvent.pollTick r :: rest =>
    match pollPipelineStep name r with
    | some v => some v
    | none => deprecatedWaitLoop name tstr rest

/-- deprecatedWaitToBeDestroyed from destroy.go: builds the one-second poll
ticker and the overall timeout ticker, creates the client (an error there is
returned at once), then runs the select loop. tstr is timeout.String(). -/
def deprecatedWaitToBeDestroyed (name tstr : String) (clientErr : Option String)
    (events : List TickEvent) : Option (Option String) :=
  match clientErr with
  | some e => some (some e)
  | none => deprecatedWaitLoop name tstr events

/-- True when the loop keeps polling on this tick: a poll tick whose body
neither returns nor errors. -/
def keepsPolling (name : String) : TickEvent → Bool
  | TickEvent.timeoutTick => false
  | TickEvent.pollTick r => (pollPipelineStep name r).isNone

/-- Claim C8: when the overall timeout ticker fires before the pipeline has
disappeared (every earlier tick was a poll that kept looping), the loop
returns a terminal timeout error naming the pipeline and the timeout
duration, and never polls again (whatever ticks would follow is irrelevant);
while the timeout has not expired the loop keeps polling (it has not
returned), at the fixed one-second ticker interval. -/
theorem deprecated_wait_timeout_terminal (name tstr : String)
    (pre post : List TickEvent)
    (hpre : ∀ ev ∈ pre, keepsPolling name ev = true) :
    deprecatedWaitToBeDestroyed name tstr none (pre ++ TickEvent.timeoutTick :: post) =
      some (some ("pipeline " ++ name ++ " did not finish after " ++ tstr)) ∧
    deprecatedWaitToBeDestroyed name tstr none pre = none ∧
    pollTickerSeconds = 1 := by
  induction pre with
  | nil => exact ⟨rfl, rfl, rfl⟩
  | cons ev rest ih =>
    have hev := hpre ev (List.mem_cons_self _ _)
    have hrest := ih (fun x hx => hpre x (List.mem_cons_of_mem _ hx))
    cases ev with
    | timeoutTick => simp [keepsPolling] at hev
    | pollTick r =>
      have hstep : pollPipelineStep name r = none := by
        simpa [keepsPolling, Option.isNone_iff_eq_none] using hev
      refine ⟨?_, ?_, rfl⟩
      · simpa [deprecatedWaitToBeDestroyed, deprecatedWaitLoop, hstep] using hrest.1
      · simpa [deprecatedWaitToBeDestroyed, deprecatedWaitLoop, hstep] using hrest.2.1

/-- Witness for deprecated_wait_timeout_terminal: one keep-polling tick, then
the timeout fires, with further poll ticks pending after it. -/
theorem deprecated_wait_timeout_terminal_witness :
    deprecatedWaitToBeDestroyed "pipe" "5m0s" none
      [TickEvent.pollTick (PollResult.pipeline "destroying"), TickEvent.timeoutTick,
        TickEvent.pollTick (PollResult.clientErr ⟨true, false, false, "gone"⟩)] =
      some (some ("pipeline " ++ "pipe" ++ " did not finish after " ++ "5m0s")) ∧
    deprecatedWaitToBeDestroyed "pipe" "5m0s" none
      [TickEvent.pollTick (PollResult.pipeline "destroying")] = none ∧
    pollTickerSeconds = 1 :=
  deprecated_wait_timeout_terminal "pipe" "5m0s"
    [TickEvent.pollTick (PollResult.pipeline "destroying")]
    [TickEvent.pollTick (PollResult.clientErr ⟨true, false, false, "gone"⟩)]
    (by decide)

/-- Claim C9: when the OS interrupt fires while destroyPipeline is still
waiting for the destroy request, destroyPipeline returns a nil response AND a
nil error; with the wait flag set, the destroy command therefore proceeds to
evaluate resp.Action on that nil response (a nil-pointer dereference) instead
of returning an interrupt error. -/
theorem interrupt_returns_nil_nil_then_nil_deref (name : String)
    (outcome : Option KErr) (resp : GitDeployResponse) :
    destroyPipeline none DestroySel.interrupt name outcome resp = (none, none) ∧
    destroyAfterPipeline true
        (destroyPipeline none DestroySel.interrupt name outcome resp) =
      DestroyOutcome.proceedsToWait RespActionEval.nilPointerPanic ∧
    ∀ m, destroyAfterPipeline true
        (destroyPipeline none DestroySel.interrupt name outcome resp) ≠
      DestroyOutcome.err m := by
  refine ⟨rfl, rfl, ?_⟩
  intro m h
  exact DestroyOutcome.noConfusion h

/-- buildExecCommand from up.go: picks an available port (falling back to
15000 when GetAvailablePort errors), builds the argument list
exec --pod POD --port PORT, appends the flag -s followed by dev.Space when
dev.Space is the empty string, then a separator and the dev command. Returns
the argument list and the port. -/
def buildExecCommandArgs (space pod : String) (portResult : Option Nat)
    (command : List String) : List String × Nat :=
  let port := portResult.getD 15000
  let args := ["exec", "--pod", pod, "--port", toString port]
  let args := if space = "" then args ++ ["-s", space] else args
  (args ++ "--" :: command, port)

/-- Claim C10: buildExecCommand appends the -s space flag exactly when the
configured space is the empty string, passing that empty string as the flag's
value, and omits the flag whenever a non-empty space is configured. The
hypotheses rule out the other arguments accidentally spelling -s. -/
theorem space_flag_iff_space_empty (space pod : String) (portResult : Option Nat)
    (command : List String) (hpod : pod ≠ "-s")
    (hport : toString (portResult.getD 15000) ≠ "-s") (hcmd : "-s" ∉ command) :
    ("-s" ∈ (buildExecCommandArgs space pod portResult command).1 ↔ space = "") ∧
    (space = "" → ∃ front back,
      (buildExecCommandArgs space pod portResult command).1 =
        front ++ "-s" :: space :: back) := by
  by_cases hs : space = ""
  · subst hs
    constructor
    · constructor
      · intro _; rfl
      · intro _
        simp [buildExecCommandArgs]
    · intro _
      refine ⟨["exec", "--pod", pod, "--port", toString (portResult.getD 15000)],
        "--" :: command, ?_⟩
      simp [buildExecCommandArgs]
  · constructor
    · constructor
      · intro hmem
        exfalso
        have h1 : ¬ ("-s" = pod) := fun hx => hpod hx.symm
        have h2 : ¬ ("-s" = toString (portResult.getD 15000)) := fun hx => hport hx.symm
        have h3 : ¬ ("-s" ∈ command) := hcmd
        simp [buildExecCommandArgs, hs, h1, h2, h3] at hmem
      · intro h; exact absurd h hs
    · intro h; exact absurd h hs

/-- Witness for space_flag_iff_space_empty at a concrete empty-space dev
configuration. -/
theorem space_flag_iff_space_empty_witness :
    ("-s" ∈ (buildExecCommandArgs "" "web-pod" (some 12345) ["bash"]).1 ↔ "" = "") ∧
    ("" = "" → ∃ front back,
      (buildExecCommandArgs "" "web-pod" (some 12345) ["bash"]).1 =
        front ++ "-s" :: "" :: back) :=
  space_flag_iff_space_empty "" "web-pod" (some 12345) ["bash"]
    (by decide) (by decide) (by decide)
